import Mathlib

/-!
Shallow embedding of the PeerCat Rust SDK request-execution core
(`src/error.rs`, `src/client.rs`, configuration types from `src/types.rs`),
together with theorems settling the frozen claims about the natural-language
specification of the library.

The embedding models:
* `RateLimitInfo.from_headers` — rate-limit header parsing (`error.rs:20-51`),
  with header maps as association lists of strings and Rust `str::parse`
  modelled by bounded decimal parsers;
* `PeerCatError` and its methods `from_api_error`, `retry_after`,
  `is_retryable` (`error.rs:56-198`);
* the retry loop of `PeerCat::request` (`client.rs:364-461`) as a fuel-indexed
  recursion over an attempt-indexed transport oracle, recording the result,
  the number of attempts made and the list of backoff delays slept;
* `PeerCat::with_config` (`client.rs:79-103`) as a pure constructor.

Transport and body decoding are abstracted exactly at the boundary the code
observes: an attempt yields either a transport failure (with a timeout flag,
`reqwest::Error::is_timeout`) or a response carrying a status, headers, the
outcome of decoding the body as the expected success shape, and the outcome
of decoding the body as the structured error envelope `ApiErrorResponse`.
-/

namespace PeerCatSDK

/-- Decimal digit accumulator: consumes the remaining characters, failing on
the first non-digit, mirroring the digit loop inside Rust `str::parse` for
integer types. -/
def digitsToNat : List Char → Nat → Option Nat
  | [], acc => some acc
  | c :: cs, acc =>
      if c.isDigit then digitsToNat cs (acc * 10 + (c.toNat - 48)) else none

/-- Rust `str::parse` for an unsigned integer type, without the width bound:
an optional leading plus sign followed by at least one decimal digit. -/
def parseUnsigned (s : String) : Option Nat :=
  match s.data with
  | [] => none
  | '+' :: [] => none
  | '+' :: cs => digitsToNat cs 0
  | cs => digitsToNat cs 0

/-- Rust `"…".parse::<u32>()`: unsigned decimal, failing on overflow past
the 32-bit range. -/
def parseU32 (s : String) : Option Nat :=
  (parseUnsigned s).bind fun n => if n < 2 ^ 32 then some n else none

/-- Rust `"…".parse::<u64>()`: unsigned decimal, failing on overflow past
the 64-bit range. -/
def parseU64 (s : String) : Option Nat :=
  (parseUnsigned s).bind fun n => if n < 2 ^ 64 then some n else none

/-- Rust `"…".parse::<i64>()`: optional sign, decimal digits, 64-bit signed
range check. -/
def parseI64 (s : String) : Option Int :=
  match s.data with
  | '-' :: [] => none
  | '-' :: cs =>
      (digitsToNat cs 0).bind fun n =>
        if n ≤ 2 ^ 63 then some (-(n : Int)) else none
  | _ =>
      (parseUnsigned s).bind fun n =>
        if n < 2 ^ 63 then some (n : Int) else none

/-- ASCII lowercase of one character; header names are ASCII, which is all
the case-insensitivity of HTTP header names needs. -/
def asciiLower (c : Char) : Char :=
  if 65 ≤ c.toNat ∧ c.toNat ≤ 90 then Char.ofNat (c.toNat + 32) else c

/-- ASCII lowercase of a string. -/
def lowerString (s : String) : String :=
  ⟨s.data.map asciiLower⟩

/-- Case-insensitive header lookup, the first matching entry winning:
`reqwest::header::HeaderMap::get` with a string name. Header values are
modelled as strings, so the `to_str().ok()` step never fails here. -/
def headerLookup (headers : List (String × String)) (name : String) : Option String :=
  (headers.find? fun h => lowerString h.1 == lowerString name).map (fun h => h.2)

/-- Rate limit information from response headers (`error.rs` struct
`RateLimitInfo`). -/
structure RateLimitInfo where
  limit : Option Nat
  remaining : Option Nat
  reset : Option Int
  retry_after : Option Nat
deriving Repr, DecidableEq

/-- Parse rate limit information from HTTP headers
(`RateLimitInfo::from_headers`, `error.rs:20-51`): each of the four headers
is looked up and parsed independently, and a `RateLimitInfo` is produced
exactly when at least one lookup-and-parse succeeded. -/
def RateLimitInfo.from_headers (headers : List (String × String)) : Option RateLimitInfo :=
  let limit := (headerLookup headers "X-RateLimit-Limit").bind parseU32
  let remaining := (headerLookup headers "X-RateLimit-Remaining").bind parseU32
  let reset := (headerLookup headers "X-RateLimit-Reset").bind parseI64
  let retry_after := (headerLookup headers "Retry-After").bind parseU64
  if limit.isSome || remaining.isSome || reset.isSome || retry_after.isSome then
    some ⟨limit, remaining, reset, retry_after⟩
  else
    none

/-- All possible errors from the PeerCat SDK (`error.rs` enum
`PeerCatError`). `Network` and `Json` carry the underlying error rendered
as a message string. `EmptyApiKey` is the variant `client.rs:81` returns for
an empty API key (client and test code name it, though the enum declaration
in `error.rs` omits it). -/
inductive PeerCatError where
  | Authentication (message : String) (code : String) (param : Option String)
  | InvalidRequest (message : String) (code : String) (param : Option String)
  | InsufficientCredits (message : String) (code : String)
  | RateLimit (message : String) (code : String) (rate_limit_info : Option RateLimitInfo)
  | NotFound (message : String) (code : String) (param : Option String)
  | Server (message : String) (code : String) (status : Nat)
  | Network (message : String)
  | Json (message : String)
  | Timeout
  | Unknown (status : Nat) (error_type : String) (code : String) (message : String)
      (param : Option String)
  | EmptyApiKey
deriving Repr, DecidableEq

/-- Create an error from an API error response
(`PeerCatError::from_api_error`, `error.rs:126-169`): match on the
`error_type` string, with a guarded fallthrough sending unrecognized types
with status at least 500 to `Server` and the rest to `Unknown`. -/
def PeerCatError.from_api_error (status : Nat) (error_type : String) (code : String)
    (message : String) (param : Option String) (rate_limit_info : Option RateLimitInfo) :
    PeerCatError :=
  match error_type with
  | "authentication_error" => .Authentication message code param
  | "invalid_request_error" => .InvalidRequest message code param
  | "insufficient_credits" => .InsufficientCredits message code
  | "rate_limit_error" => .RateLimit message code rate_limit_info
  | "not_found" => .NotFound message code param
  | _ =>
      if 500 ≤ status then .Server message code status
      else .Unknown status error_type code message param

/-- Returns the retry-after value in seconds if available
(`PeerCatError::retry_after`, `error.rs:172-179`). -/
def PeerCatError.retry_after : PeerCatError → Option Nat
  | .RateLimit _ _ rate_limit_info => rate_limit_info.bind fun info => info.retry_after
  | _ => none

/-- Returns true if this is a retryable error
(`PeerCatError::is_retryable`, `error.rs:190-198`). -/
def PeerCatError.is_retryable : PeerCatError → Bool
  | .Network _ | .Timeout | .Server _ _ _ | .RateLimit _ _ _ => true
  | _ => false

/-- The structured API error envelope detail (`types.rs` struct
`ApiErrorDetail`, wrapped in `ApiErrorResponse` on the wire). -/
structure ApiErrorDetail where
  error_type : String
  code : String
  message : String
  param : Option String
deriving Repr, DecidableEq

/-- Outcome of reading and decoding a success-status body as the expected
shape `T` (`response.json().await` on the 2xx path, `client.rs:394-404`):
either the decoded value, a decode failure (`reqwest::Error::is_decode`),
or a non-decode failure while reading the body. -/
inductive SuccessDecode (V : Type) where
  | ok (v : V)
  | decodeError (message : String)
  | readError (message : String)
deriving Repr, DecidableEq

/-- A received HTTP response as the retry loop observes it: status code,
headers, and the outcomes of the two body decodings the code may attempt
(success shape on 2xx, error envelope otherwise). -/
structure HttpResponse (V : Type) where
  status : Nat
  headers : List (String × String)
  successBody : SuccessDecode V
  errorBody : Option ApiErrorDetail
deriving Repr, DecidableEq

/-- One attempt outcome from the transport (`request.send().await`):
either a transport-level failure, distinguished by
`reqwest::Error::is_timeout`, or a response. -/
inductive TransportOutcome (V : Type) where
  | transportError (isTimeout : Bool) (message : String)
  | response (r : HttpResponse V)
deriving Repr, DecidableEq

/-- Rust `StatusCode::is_success`: 200 through 299. -/
def isSuccessStatus (status : Nat) : Bool :=
  decide (200 ≤ status) && decide (status ≤ 299)

/-- Rust `StatusCode::is_client_error`: 400 through 499. -/
def isClientError (status : Nat) : Bool :=
  decide (400 ≤ status) && decide (status ≤ 499)

/-- The retry decision of the Request Executor for a failure response,
read off `client.rs:430`: the error is terminal exactly when the status is
a client error other than 429, so the attempt is retried otherwise. -/
def executorRetries (status : Nat) : Bool :=
  !(isClientError status && status != 429)

/-- The error built from a non-success response (`client.rs:408-427`):
classify the decoded envelope via `from_api_error`, or synthesize the
fixed parse-error `Unknown` when the envelope did not decode. -/
def responseError (status : Nat) (envelope : Option ApiErrorDetail)
    (rate_limit_info : Option RateLimitInfo) : PeerCatError :=
  match envelope with
  | some err =>
      PeerCatError.from_api_error status err.error_type err.code err.message err.param
        rate_limit_info
  | none => .Unknown status "unknown" "parse_error" "Failed to parse error response" none

/-- What one iteration of the attempt loop does with its outcome before the
backoff block: `done` is a `return` out of the loop, `failed` records the
error in `last_error` and falls through to the backoff block. -/
inductive StepResult (V : Type) where
  | done (r : Except PeerCatError V)
  | failed (e : PeerCatError)
deriving Repr

/-- The body of one iteration of the attempt loop (`client.rs:384-443`):
transport failures become `Timeout` or `Network` and are recorded; a 2xx
response returns the decoded value or a terminal decode error; a failure
response is classified, returned when the status is a non-429 client error,
and recorded otherwise. -/
def attemptStep {V : Type} (outcome : TransportOutcome V) : StepResult V :=
  match outcome with
  | .transportError isTimeout message =>
      if isTimeout then .failed .Timeout else .failed (.Network message)
  | .response r =>
      let rate_limit_info := RateLimitInfo.from_headers r.headers
      if isSuccessStatus r.status then
        match r.successBody with
        | .ok v => .done (.ok v)
        | .decodeError message => .done (.error (.Json message))
        | .readError message => .done (.error (.Network message))
      else
        let error := responseError r.status r.errorBody rate_limit_info
        if isClientError r.status && r.status != 429 then
          .done (.error error)
        else
          .failed error

/-- The backoff delay in milliseconds computed at `client.rs:446-454`:
exponential in the attempt index, capped at 10000, overridden by
`retry_after * 1000` when the recorded error exposes a retry-after value.
The source computes in `u64` (`1000 * 2u64.pow(attempt)` at `client.rs:447`,
`retry_after * 1000` at `client.rs:452`), which wraps modulo `2 ^ 64` in
release builds; the wrapping is made explicit here — `2u64.pow(attempt)`
wraps to `2 ^ attempt % 2 ^ 64` (binary exponentiation with wrapping
multiplications is congruent to the full power), and each product wraps
again. -/
def computeDelay (attempt : Nat) (lastError : Option PeerCatError) : Nat :=
  let delay := min (1000 * (2 ^ attempt % 2 ^ 64) % 2 ^ 64) 10000
  match lastError with
  | some error =>
      match error.retry_after with
      | some retry_after => retry_after * 1000 % 2 ^ 64
      | none => delay
  | none => delay

/-- Observable outcome of one `execute` call: the returned result, the
number of attempts dispatched, and the backoff delays slept in order. -/
structure RequestOutcome (V : Type) where
  result : Except PeerCatError V
  attempts : Nat
  delays : List Nat
deriving Repr

/-- The attempt loop of `PeerCat::request` (`client.rs:373-460`), fuel-indexed:
`tr` is the transport oracle giving each attempt its outcome, fuel counts the
loop iterations remaining (`max_retries + 1` at entry), and exhausted fuel is
the fall-through return `last_error.unwrap_or(Timeout)` at `client.rs:460`.
The backoff block runs only while `attempt < maxRetries`. -/
def requestLoop {V : Type} (tr : Nat → TransportOutcome V) (maxRetries : Nat) :
    Nat → Option PeerCatError → Nat → RequestOutcome V
  | _, lastError, 0 => ⟨.error (lastError.getD .Timeout), 0, []⟩
  | attempt, _, fuel + 1 =>
      match attemptStep (tr attempt) with
      | .done r => ⟨r, 1, []⟩
      | .failed e =>
          let rest := requestLoop tr maxRetries (attempt + 1) (some e) fuel
          if attempt < maxRetries then
            ⟨rest.result, rest.attempts + 1, computeDelay attempt (some e) :: rest.delays⟩
          else
            ⟨rest.result, rest.attempts + 1, rest.delays⟩

/-- `PeerCat::request` seen from its observable retry behaviour: run the
attempt loop `for attempt in 0..=max_retries` with no error yet recorded. -/
def request {V : Type} (tr : Nat → TransportOutcome V) (maxRetries : Nat) :
    RequestOutcome V :=
  requestLoop tr maxRetries 0 none (maxRetries + 1)

/-- Configuration for the PeerCat client (`types.rs` struct `PeerCatConfig`). -/
structure PeerCatConfig where
  api_key : String
  base_url : Option String
  timeout : Option Nat
  max_retries : Option Nat
deriving Repr, DecidableEq

/-- Create a new configuration with just an API key (`PeerCatConfig::new`). -/
def PeerCatConfig.new (api_key : String) : PeerCatConfig :=
  ⟨api_key, none, none, none⟩

/-- Default base URL (`client.rs:9`). -/
def DEFAULT_BASE_URL : String := "https://api.peerc.at"

/-- Default timeout in seconds (`client.rs:10`). -/
def DEFAULT_TIMEOUT : Nat := 60

/-- Default retry budget (`client.rs:11`). -/
def DEFAULT_MAX_RETRIES : Nat := 3

/-- Rust `str::trim_end_matches('/')`: drop every trailing slash. -/
def trimEndMatchesSlash (s : String) : String :=
  ⟨(s.data.reverse.dropWhile fun c => c == '/').reverse⟩

/-- The configured client state `PeerCat` (`client.rs:35-40`); the timeout is
the one baked into the underlying HTTP client at build time. -/
structure PeerCat where
  api_key : String
  base_url : String
  timeout : Nat
  max_retries : Nat
deriving Repr, DecidableEq

/-- Create a new PeerCat client with custom configuration
(`PeerCat::with_config`, `client.rs:79-103`): reject an empty API key,
otherwise apply defaults and strip trailing slashes from the base URL.
It performs no network call: building the HTTP client only stores the
timeout. -/
def PeerCat.with_config (config : PeerCatConfig) : Except PeerCatError PeerCat :=
  if config.api_key = "" then
    .error .EmptyApiKey
  else
    let timeout := config.timeout.getD DEFAULT_TIMEOUT
    let base_url := trimEndMatchesSlash (config.base_url.getD DEFAULT_BASE_URL)
    .ok ⟨config.api_key, base_url, timeout, config.max_retries.getD DEFAULT_MAX_RETRIES⟩

/-- Create a new PeerCat client with an API key (`PeerCat::new`). -/
def PeerCat.new (api_key : String) : Except PeerCatError PeerCat :=
  PeerCat.with_config (PeerCatConfig.new api_key)

/-- Transcription of the Error Classifier table of §4.2 of the specification,
row by row in order, used for the refinement comparison against
`PeerCatError.from_api_error`. -/
def classify_spec (status : Nat) (error_type : String) (code : String) (message : String)
    (param : Option String) (rate_limit_info : Option RateLimitInfo) : PeerCatError :=
  if error_type = "authentication_error" then .Authentication message code param
  else if error_type = "invalid_request_error" then .InvalidRequest message code param
  else if error_type = "insufficient_credits" then .InsufficientCredits message code
  else if error_type = "rate_limit_error" then .RateLimit message code rate_limit_info
  else if error_type = "not_found" then .NotFound message code param
  else if 500 ≤ status then .Server message code status
  else .Unknown status error_type code message param

/-- Whether the error type string is one of the five the classifier
recognizes by name. -/
def recognizedType (t : String) : Bool :=
  t == "authentication_error" || t == "invalid_request_error" ||
    t == "insufficient_credits" || t == "rate_limit_error" || t == "not_found"

/-- Fixture: a 404 response with a decodable `not_found` envelope. -/
def wResp404 : HttpResponse Nat :=
  ⟨404, [], .decodeError "x", some ⟨"not_found", "nf", "missing", none⟩⟩

/-- Fixture: transport oracle always answering with `wResp404`. -/
def wTr404 : Nat → TransportOutcome Nat := fun _ => .response wResp404

/-- Fixture: a 500 response with an unrecognized envelope type and a
`Retry-After` header. -/
def wResp500 : HttpResponse Nat :=
  ⟨500, [("Retry-After", "5")], .decodeError "x", some ⟨"server_error", "se", "boom", none⟩⟩

/-- Fixture: transport oracle always answering with `wResp500`. -/
def wTr500 : Nat → TransportOutcome Nat := fun _ => .response wResp500

/-- Fixture: a 429 response with a decodable `rate_limit_error` envelope and
a `Retry-After: 5` header. -/
def wResp429 : HttpResponse Nat :=
  ⟨429, [("Retry-After", "5")], .decodeError "x", some ⟨"rate_limit_error", "rl", "slow", none⟩⟩

/-- Fixture: transport oracle always answering with `wResp429`. -/
def wTr429 : Nat → TransportOutcome Nat := fun _ => .response wResp429

/-- Fixture: a 200 response whose body fails to decode as the expected shape. -/
def wResp200bad : HttpResponse Nat := ⟨200, [], .decodeError "bad body", none⟩

/-- Fixture: transport oracle always answering with `wResp200bad`. -/
def wTr200bad : Nat → TransportOutcome Nat := fun _ => .response wResp200bad

/-- Fixture: a 200 response whose body decodes to the value 7. -/
def wResp200ok : HttpResponse Nat := ⟨200, [], .ok 7, none⟩

/-- Fixture: transport oracle always answering with `wResp200ok`. -/
def wTr200ok : Nat → TransportOutcome Nat := fun _ => .response wResp200ok

/-- Fixture: transport oracle whose every attempt fails with a timeout. -/
def wTrFail : Nat → TransportOutcome Nat := fun _ => .transportError true "timed out"

@[simp] theorem retry_after_Server (m c : String) (s : Nat) :
    (PeerCatError.Server m c s).retry_after = none := rfl

@[simp] theorem retry_after_RateLimit (m c : String) (i : Option RateLimitInfo) :
    (PeerCatError.RateLimit m c i).retry_after = i.bind fun info => info.retry_after := rfl

theorem classifier_eq (status : Nat) (t code msg : String) (param : Option String)
    (rli : Option RateLimitInfo) :
    PeerCatError.from_api_error status t code msg param rli =
      classify_spec status t code msg param rli := by
  by_cases h1 : t = "authentication_error"
  · subst h1; rfl
  by_cases h2 : t = "invalid_request_error"
  · subst h2; rfl
  by_cases h3 : t = "insufficient_credits"
  · subst h3; rfl
  by_cases h4 : t = "rate_limit_error"
  · subst h4; rfl
  by_cases h5 : t = "not_found"
  · subst h5; rfl
  unfold PeerCatError.from_api_error classify_spec
  simp only [if_neg h1, if_neg h2, if_neg h3, if_neg h4, if_neg h5]

theorem retryable_classified (status : Nat) (t code msg : String) (param : Option String)
    (rli : Option RateLimitInfo) :
    (PeerCatError.from_api_error status t code msg param rli).is_retryable =
      (t == "rate_limit_error" || (!recognizedType t && decide (500 ≤ status))) := by
  rw [classifier_eq]
  unfold classify_spec recognizedType
  by_cases h1 : t = "authentication_error"
  · subst h1; rfl
  by_cases h2 : t = "invalid_request_error"
  · subst h2; rfl
  by_cases h3 : t = "insufficient_credits"
  · subst h3; rfl
  by_cases h4 : t = "rate_limit_error"
  · subst h4; rfl
  by_cases h5 : t = "not_found"
  · subst h5; rfl
  simp only [if_neg h1, if_neg h2, if_neg h3, if_neg h4, if_neg h5]
  by_cases h : 500 ≤ status
  · rw [if_pos h]
    show true = _
    simp [h1, h2, h3, h4, h5, h]
  · rw [if_neg h]
    show false = _
    simp [h1, h2, h3, h4, h5, h]

theorem executorRetries_true_iff (status : Nat) :
    executorRetries status = true ↔
      (status = 429 ∨ ¬(400 ≤ status ∧ status ≤ 499)) := by
  simp [executorRetries, isClientError, bne]
  omega

/-- C1: the claim as frozen fails: the classifier marks status 429 with
error_type `authentication_error` non-retryable while the Executor retries
a 429, and marks status 404 with error_type `rate_limit_error` retryable
while the Executor treats a 404 as terminal. -/
theorem claim_C1_counterexample :
    ¬ ((PeerCatError.from_api_error 429 "authentication_error" "invalid_api_key"
          "Invalid API key" none none).is_retryable = executorRetries 429)
    ∧ ¬ ((PeerCatError.from_api_error 404 "rate_limit_error" "rate_limited"
          "Too many requests" none none).is_retryable = executorRetries 404) := by
  constructor
  · decide
  · decide

/-- C1 (amended): classifying then checking `is_retryable` agrees with the
Request Executor's status-driven retry decision exactly on the aligned pairs:
for `rate_limit_error` when the status is 429 or not a 4xx at all; for the
four other recognized error types when the status is a 4xx other than 429;
for unrecognized error types when the status is at least 500 or a 4xx other
than 429. On all other pairs of the cross product — such as 429 with
`authentication_error` or 404 with `rate_limit_error` — the two disagree. -/
theorem claim_C1 : ∀ (status : Nat) (t code msg : String) (param : Option String)
    (rli : Option RateLimitInfo),
    ((PeerCatError.from_api_error status t code msg param rli).is_retryable =
        executorRetries status) ↔
      (if t = "rate_limit_error" then
        status = 429 ∨ ¬(400 ≤ status ∧ status ≤ 499)
      else if recognizedType t = true then
        400 ≤ status ∧ status ≤ 499 ∧ status ≠ 429
      else
        500 ≤ status ∨ (400 ≤ status ∧ status ≤ 499 ∧ status ≠ 429)) := by
  intro status t code msg param rli
  rw [retryable_classified]
  have hiff := executorRetries_true_iff status
  by_cases h4 : t = "rate_limit_error"
  · subst h4
    rw [if_pos rfl]
    show (true = executorRetries status) ↔ _
    rw [eq_comm, hiff]
  · have hb : (t == "rate_limit_error") = false := by simp [h4]
    rw [if_neg h4, hb, Bool.false_or]
    by_cases hrec : recognizedType t = true
    · rw [if_pos hrec, hrec, Bool.not_true, Bool.false_and]
      rw [eq_comm]
      have hfalse : (executorRetries status = false) ↔ ¬(executorRetries status = true) := by
        simp
      rw [hfalse, hiff]
      omega
    · have hrecF : recognizedType t = false := by
        revert hrec; cases recognizedType t <;> simp
      rw [if_neg hrec, hrecF, Bool.not_false, Bool.true_and]
      by_cases h5 : 500 ≤ status
      · have hd : decide (500 ≤ status) = true := by simp [h5]
        rw [hd, eq_comm, hiff]
        constructor
        · intro _; exact Or.inl h5
        · intro _; omega
      · have hd : decide (500 ≤ status) = false := by simp [h5]
        rw [hd, eq_comm]
        have hfalse : (executorRetries status = false) ↔ ¬(executorRetries status = true) := by
          simp
        rw [hfalse, hiff]
        omega

/-- C2: the Error Classifier `PeerCatError::from_api_error` is a total pure
function agreeing, on every input, with the row-by-row transcription of the
classifier table of §4.2: the five recognized error types map to their
variants regardless of status, and any other error type maps to `Server`
carrying the status when the status is at least 500, and otherwise to
`Unknown` carrying status, error type, code, message and param. -/
theorem claim_C2 : ∀ (status : Nat) (t code msg : String) (param : Option String)
    (rli : Option RateLimitInfo),
    PeerCatError.from_api_error status t code msg param rli =
      classify_spec status t code msg param rli :=
  fun status t code msg param rli => classifier_eq status t code msg param rli

/-- C7: a non-2xx response whose body does not decode as the structured
error envelope is turned into the `Unknown` variant carrying the raw status,
error type `unknown`, code `parse_error` and the fixed message, for every
status and independently of any parsed rate-limit info — `from_api_error`
is never consulted. -/
theorem claim_C7 : ∀ (status : Nat) (rli : Option RateLimitInfo),
    responseError status none rli =
      .Unknown status "unknown" "parse_error" "Failed to parse error response" none :=
  fun _ _ => rfl

theorem requestLoop_zero {V : Type} (tr : Nat → TransportOutcome V) (mr a : Nat)
    (le : Option PeerCatError) :
    requestLoop tr mr a le 0 = ⟨.error (le.getD .Timeout), 0, []⟩ := rfl

theorem requestLoop_succ {V : Type} (tr : Nat → TransportOutcome V) (mr a : Nat)
    (le : Option PeerCatError) (fuel : Nat) :
    requestLoop tr mr a le (fuel + 1) =
      match attemptStep (tr a) with
      | .done r => ⟨r, 1, []⟩
      | .failed e =>
          let rest := requestLoop tr mr (a + 1) (some e) fuel
          if a < mr then
            ⟨rest.result, rest.attempts + 1, computeDelay a (some e) :: rest.delays⟩
          else
            ⟨rest.result, rest.attempts + 1, rest.delays⟩ := rfl

theorem requestLoop_done {V : Type} {tr : Nat → TransportOutcome V} {a : Nat}
    {r : Except PeerCatError V} (mr : Nat) (le : Option PeerCatError) (fuel : Nat)
    (h : attemptStep (tr a) = .done r) :
    requestLoop tr mr a le (fuel + 1) = ⟨r, 1, []⟩ := by
  rw [requestLoop_succ, h]

theorem requestLoop_failed {V : Type} {tr : Nat → TransportOutcome V} {a : Nat}
    {e : PeerCatError} (mr : Nat) (le : Option PeerCatError) (fuel : Nat)
    (h : attemptStep (tr a) = .failed e) :
    requestLoop tr mr a le (fuel + 1) =
      (let rest := requestLoop tr mr (a + 1) (some e) fuel
       if a < mr then
         ⟨rest.result, rest.attempts + 1, computeDelay a (some e) :: rest.delays⟩
       else
         ⟨rest.result, rest.attempts + 1, rest.delays⟩) := by
  rw [requestLoop_succ, h]

theorem isSuccessStatus_false_of_client {s : Nat} (hc : isClientError s = true) :
    isSuccessStatus s = false := by
  simp [isClientError] at hc
  simp [isSuccessStatus]
  omega

theorem attemptStep_terminal_client {V : Type} (r : HttpResponse V)
    (hc : isClientError r.status = true) (h429 : r.status ≠ 429) :
    attemptStep (.response r) =
      .done (.error (responseError r.status r.errorBody
        (RateLimitInfo.from_headers r.headers))) := by
  simp [attemptStep, isSuccessStatus_false_of_client hc, hc, h429]

theorem attemptStep_retryable_response {V : Type} (r : HttpResponse V)
    (hns : isSuccessStatus r.status = false)
    (h : isClientError r.status = false ∨ r.status = 429) :
    attemptStep (.response r) =
      .failed (responseError r.status r.errorBody (RateLimitInfo.from_headers r.headers)) := by
  rcases h with h | h
  · simp [attemptStep, hns, h]
  · simp [attemptStep, h, isSuccessStatus, isClientError]

theorem attemptStep_transport {V : Type} (b : Bool) (m : String) :
    attemptStep (V := V) (.transportError b m) =
      .failed (if b then .Timeout else .Network m) := by
  cases b <;> simp [attemptStep]

theorem attemptStep_success {V : Type} (r : HttpResponse V)
    (hs : isSuccessStatus r.status = true) :
    attemptStep (.response r) =
      (match r.successBody with
       | .ok v => .done (.ok v)
       | .decodeError m => .done (.error (.Json m))
       | .readError m => .done (.error (.Network m))) := by
  simp [attemptStep, hs]

/-- C3: a non-429 client-error (4xx) response is terminal: the loop returns
its classified error at once, with exactly one attempt and no backoff,
whatever the remaining retry budget; every other failure outcome — a
failure response that is a 5xx, a 429 or any non-4xx failure status, or a
transport failure — is recorded as the last error and the loop proceeds to
the retry/backoff step. -/
theorem claim_C3 : ∀ (V : Type) (tr : Nat → TransportOutcome V) (mr a : Nat)
    (le : Option PeerCatError) (fuel : Nat) (r : HttpResponse V),
    (tr a = .response r → isClientError r.status = true → r.status ≠ 429 →
      requestLoop tr mr a le (fuel + 1) =
        ⟨.error (responseError r.status r.errorBody (RateLimitInfo.from_headers r.headers)),
          1, []⟩)
    ∧ (tr a = .response r → isSuccessStatus r.status = false →
        (isClientError r.status = false ∨ r.status = 429) →
        requestLoop tr mr a le (fuel + 1) =
          (let e := responseError r.status r.errorBody (RateLimitInfo.from_headers r.headers)
           let rest := requestLoop tr mr (a + 1) (some e) fuel
           if a < mr then
             ⟨rest.result, rest.attempts + 1, computeDelay a (some e) :: rest.delays⟩
           else
             ⟨rest.result, rest.attempts + 1, rest.delays⟩))
    ∧ (∀ (b : Bool) (m : String), tr a = .transportError b m →
        requestLoop tr mr a le (fuel + 1) =
          (let e := if b then PeerCatError.Timeout else .Network m
           let rest := requestLoop tr mr (a + 1) (some e) fuel
           if a < mr then
             ⟨rest.result, rest.attempts + 1, computeDelay a (some e) :: rest.delays⟩
           else
             ⟨rest.result, rest.attempts + 1, rest.delays⟩)) := by
  intro V tr mr a le fuel r
  refine ⟨?_, ?_, ?_⟩
  · intro h hc h429
    exact requestLoop_done mr le fuel
      (by rw [h]; exact attemptStep_terminal_client r hc h429)
  · intro h hns hcase
    exact requestLoop_failed mr le fuel
      (by rw [h]; exact attemptStep_retryable_response r hns hcase)
  · intro b m h
    exact requestLoop_failed mr le fuel
      (by rw [h]; exact attemptStep_transport b m)

/-- Witness for C3: the 404 `not_found` response is returned classified after
one attempt with retry budget 3; the 500 response is recorded and the loop
proceeds through the backoff step; a timed-out attempt likewise. -/
theorem claim_C3_witness :
    requestLoop wTr404 3 0 none 4 =
      ⟨.error (responseError wResp404.status wResp404.errorBody
          (RateLimitInfo.from_headers wResp404.headers)), 1, []⟩
    ∧ requestLoop wTr500 1 0 none 2 =
        (let e := responseError wResp500.status wResp500.errorBody
            (RateLimitInfo.from_headers wResp500.headers)
         let rest := requestLoop wTr500 1 1 (some e) 1
         if 0 < 1 then
           ⟨rest.result, rest.attempts + 1, computeDelay 0 (some e) :: rest.delays⟩
         else
           ⟨rest.result, rest.attempts + 1, rest.delays⟩)
    ∧ requestLoop wTrFail 2 0 none 2 =
        (let e := if true then PeerCatError.Timeout else .Network "timed out"
         let rest := requestLoop wTrFail 2 1 (some e) 1
         if 0 < 2 then
           ⟨rest.result, rest.attempts + 1, computeDelay 0 (some e) :: rest.delays⟩
         else
           ⟨rest.result, rest.attempts + 1, rest.delays⟩) :=
  ⟨(claim_C3 Nat wTr404 3 0 none 3 wResp404).1 rfl (by decide) (by decide),
   (claim_C3 Nat wTr500 1 0 none 1 wResp500).2.1 rfl (by decide) (Or.inl (by decide)),
   (claim_C3 Nat wTrFail 2 0 none 1 wResp404).2.2 true "timed out" rfl⟩

/-- C4: the claim as frozen fails: the source computes the exponential
delay in `u64`, which wraps. With a retry budget of 62 (reachable, since
`max_retries` is a user-settable `u32`) and every attempt timing out, the
delay recorded after attempt 61 is `1000 * 2 ^ 61 % 2 ^ 64 = 0`
milliseconds, where the claimed formula `min(1000 * 2 ^ 61, 10000)` gives
10000. -/
theorem claim_C4_counterexample :
    (request wTrFail 62).delays.getLast? = some 0
    ∧ min (1000 * 2 ^ 61) 10000 = 10000 := by
  constructor
  · decide
  · decide

/-- C4 (amended): whenever an attempt `a` with `a < max_retries` fails
retryably, the delay slept before attempt `a + 1` is
`min(1000 * 2 ^ a mod 2 ^ 64, 10000)` milliseconds under the source's
`u64` wrapping arithmetic — 1000ms after attempt 0, 2000ms after attempt 1,
capped at 10000ms, coinciding with `min(1000 * 2 ^ a, 10000)` for every
`a ≤ 54` but wrapping (to 0 at `a = 61`) beyond — except that when the
recorded error carries a retry-after value `ra` the delay is
`ra * 1000 mod 2 ^ 64` milliseconds; after the final attempt
(`a = max_retries`) no delay is recorded at all. -/
theorem claim_C4 : ∀ (V : Type) (tr : Nat → TransportOutcome V) (mr a : Nat)
    (le : Option PeerCatError) (fuel : Nat) (e : PeerCatError),
    (attemptStep (tr a) = .failed e → a < mr →
      (requestLoop tr mr a le (fuel + 1)).delays =
        (match e.retry_after with
         | some ra => ra * 1000 % 2 ^ 64
         | none => min (1000 * (2 ^ a % 2 ^ 64) % 2 ^ 64) 10000) ::
          (requestLoop tr mr (a + 1) (some e) fuel).delays)
    ∧ (requestLoop tr mr mr le 1).delays = [] := by
  intro V tr mr a le fuel e
  constructor
  · intro h hlt
    rw [requestLoop_failed mr le fuel h]
    simp only [hlt, if_true, computeDelay]
  · cases h : attemptStep (tr mr) with
    | done r => rw [requestLoop_done mr le 0 h]
    | failed e2 =>
        rw [requestLoop_failed mr le 0 h]
        simp [requestLoop_zero]

/-- Witness for C4: with the 429 rate-limited transport and `Retry-After: 5`,
the recorded delay is 5000ms, overriding the exponential value; at the final
attempt index no delay is recorded. -/
theorem claim_C4_witness :
    (requestLoop wTr429 2 0 none 3).delays =
      (match (PeerCatError.RateLimit "slow" "rl"
          (some ⟨none, none, none, some 5⟩)).retry_after with
       | some ra => ra * 1000 % 2 ^ 64
       | none => min (1000 * (2 ^ 0 % 2 ^ 64) % 2 ^ 64) 10000) ::
        (requestLoop wTr429 2 1
          (some (.RateLimit "slow" "rl" (some ⟨none, none, none, some 5⟩))) 2).delays
    ∧ (requestLoop wTr429 2 2 none 1).delays = [] :=
  ⟨(claim_C4 Nat wTr429 2 0 none 2
      (.RateLimit "slow" "rl" (some ⟨none, none, none, some 5⟩))).1 rfl (by decide),
   (claim_C4 Nat wTr429 2 0 none 0
      (.RateLimit "slow" "rl" (some ⟨none, none, none, some 5⟩))).2⟩

theorem requestLoop_attempts_le {V : Type} (tr : Nat → TransportOutcome V) (mr : Nat) :
    ∀ (fuel a : Nat) (le : Option PeerCatError),
      (requestLoop tr mr a le fuel).attempts ≤ fuel := by
  intro fuel
  induction fuel with
  | zero => intro a le; simp [requestLoop_zero]
  | succ n ih =>
      intro a le
      cases h : attemptStep (tr a) with
      | done r => rw [requestLoop_done mr le n h]; exact Nat.succ_le_succ (Nat.zero_le n)
      | failed e =>
          rw [requestLoop_failed mr le n h]
          by_cases hlt : a < mr <;>
            simpa [hlt] using Nat.succ_le_succ (ih (a + 1) (some e))

theorem requestLoop_all_failed {V : Type} (tr : Nat → TransportOutcome V) (mr : Nat)
    (errs : Nat → PeerCatError) :
    ∀ (fuel a : Nat) (le : Option PeerCatError), a + fuel = mr →
      (∀ i, a ≤ i → i ≤ mr → attemptStep (tr i) = .failed (errs i)) →
      (requestLoop tr mr a le (fuel + 1)).result = .error (errs mr) ∧
        (requestLoop tr mr a le (fuel + 1)).attempts = fuel + 1 := by
  intro fuel
  induction fuel with
  | zero =>
      intro a le ha hstep
      have ha2 : a = mr := by omega
      rw [requestLoop_failed mr le 0 (hstep a (le_refl a) (by omega))]
      simp [ha2, requestLoop_zero]
  | succ n ih =>
      intro a le ha hstep
      have hlt : a < mr := by omega
      rw [requestLoop_failed mr le (n + 1) (hstep a (le_refl a) (by omega))]
      have ih2 := ih (a + 1) (some (errs a)) (by omega) (fun i h1 h2 => hstep i (by omega) h2)
      simp only [hlt, if_true]
      exact ⟨ih2.1, by rw [ih2.2]⟩

/-- C5: the attempt loop runs indices 0 through `max_retries`, so at most
`max_retries + 1` attempts are made; with `max_retries = 0` exactly one
attempt is made whatever the outcome; when every attempt fails retryably the
loop returns the error recorded on the last attempt with `max_retries + 1`
attempts made; and a loop frame that exhausts its fuel returns the recorded
last error, or a `Timeout` fallback when no error was ever recorded. -/
theorem claim_C5 : ∀ (V : Type) (tr : Nat → TransportOutcome V) (mr : Nat)
    (errs : Nat → PeerCatError),
    (request tr mr).attempts ≤ mr + 1
    ∧ (request tr 0).attempts = 1
    ∧ ((∀ i, i ≤ mr → attemptStep (tr i) = .failed (errs i)) →
        (request tr mr).result = .error (errs mr) ∧ (request tr mr).attempts = mr + 1)
    ∧ (∀ (a : Nat) (e : PeerCatError), requestLoop tr mr a (some e) 0 = ⟨.error e, 0, []⟩)
    ∧ (∀ a : Nat, requestLoop tr mr a none 0 = ⟨.error .Timeout, 0, []⟩) := by
  intro V tr mr errs
  refine ⟨requestLoop_attempts_le tr mr (mr + 1) 0 none, ?_, ?_, fun a e => rfl, fun a => rfl⟩
  · cases h : attemptStep (tr 0) with
    | done r => rw [request, requestLoop_done 0 none 0 h]
    | failed e =>
        rw [request, requestLoop_failed 0 none 0 h]
        simp [requestLoop_zero]
  · intro h
    exact requestLoop_all_failed tr mr errs mr 0 none (by omega) (fun i h1 h2 => h i h2)

/-- Witness for C5: with the always-500 transport and retry budget 2, all
three attempts fail and the loop returns the `Server` error recorded on the
last attempt. -/
theorem claim_C5_witness :
    (request wTr500 2).result = .error (.Server "boom" "se" 500)
    ∧ (request wTr500 2).attempts = 2 + 1 :=
  (claim_C5 Nat wTr500 2 (fun _ => .Server "boom" "se" 500)).2.2.1 (fun _ _ => rfl)

/-- C6: a 2xx response whose body fails to decode as the expected shape is a
terminal `Json` decode error — one attempt, no backoff, whatever the retry
budget — and a 2xx response whose body decodes returns the decoded value
immediately, ending the loop. -/
theorem claim_C6 : ∀ (V : Type) (tr : Nat → TransportOutcome V) (mr a : Nat)
    (le : Option PeerCatError) (fuel : Nat) (r : HttpResponse V) (v : V) (m : String),
    (tr a = .response r → isSuccessStatus r.status = true → r.successBody = .decodeError m →
      requestLoop tr mr a le (fuel + 1) = ⟨.error (.Json m), 1, []⟩)
    ∧ (tr a = .response r → isSuccessStatus r.status = true → r.successBody = .ok v →
      requestLoop tr mr a le (fuel + 1) = ⟨.ok v, 1, []⟩) := by
  intro V tr mr a le fuel r v m
  constructor
  · intro h hs hb
    exact requestLoop_done mr le fuel (by rw [h, attemptStep_success r hs, hb])
  · intro h hs hb
    exact requestLoop_done mr le fuel (by rw [h, attemptStep_success r hs, hb])

/-- Witness for C6: the undecodable 200 body yields the `Json` error in one
attempt with retry budget 3; the decodable one returns the value 7. -/
theorem claim_C6_witness :
    requestLoop wTr200bad 3 0 none 4 = ⟨.error (.Json "bad body"), 1, []⟩
    ∧ requestLoop wTr200ok 3 0 none 4 = ⟨.ok 7, 1, []⟩ :=
  ⟨(claim_C6 Nat wTr200bad 3 0 none 3 wResp200bad 0 "bad body").1 rfl (by decide) rfl,
   (claim_C6 Nat wTr200ok 3 0 none 3 wResp200ok 7 "x").2 rfl (by decide) rfl⟩

/-- C8: the claim as frozen fails: the `Retry-After` header is present here,
yet its value does not parse as an integer, so no `RateLimitInfo` is
constructed. -/
theorem claim_C8_counterexample :
    headerLookup [("Retry-After", "soon")] "Retry-After" = some "soon"
    ∧ RateLimitInfo.from_headers [("Retry-After", "soon")] = none :=
  ⟨rfl, rfl⟩

/-- C8 (amended): a `RateLimitInfo` is constructed if and only if at least
one of the four headers `X-RateLimit-Limit`, `X-RateLimit-Remaining`,
`X-RateLimit-Reset`, `Retry-After` is present with a value that parses as
its integer type; in particular when none of the four headers is present at
all the result is absent entirely. -/
theorem claim_C8 : ∀ headers : List (String × String),
    ((RateLimitInfo.from_headers headers).isSome =
      (((headerLookup headers "X-RateLimit-Limit").bind parseU32).isSome
        || ((headerLookup headers "X-RateLimit-Remaining").bind parseU32).isSome
        || ((headerLookup headers "X-RateLimit-Reset").bind parseI64).isSome
        || ((headerLookup headers "Retry-After").bind parseU64).isSome))
    ∧ (headerLookup headers "X-RateLimit-Limit" = none →
        headerLookup headers "X-RateLimit-Remaining" = none →
        headerLookup headers "X-RateLimit-Reset" = none →
        headerLookup headers "Retry-After" = none →
        RateLimitInfo.from_headers headers = none) := by
  intro headers
  constructor
  · cases hb : (((headerLookup headers "X-RateLimit-Limit").bind parseU32).isSome
        || ((headerLookup headers "X-RateLimit-Remaining").bind parseU32).isSome
        || ((headerLookup headers "X-RateLimit-Reset").bind parseI64).isSome
        || ((headerLookup headers "Retry-After").bind parseU64).isSome) with
    | true => simp [RateLimitInfo.from_headers, hb]
    | false => simp [RateLimitInfo.from_headers, hb]
  · intro h1 h2 h3 h4
    simp [RateLimitInfo.from_headers, h1, h2, h3, h4]

/-- Witness for C8: an empty header map has none of the four headers and
yields no `RateLimitInfo`. -/
theorem claim_C8_witness :
    headerLookup [] "X-RateLimit-Limit" = none
    ∧ headerLookup [] "X-RateLimit-Remaining" = none
    ∧ headerLookup [] "X-RateLimit-Reset" = none
    ∧ headerLookup [] "Retry-After" = none
    ∧ RateLimitInfo.from_headers [] = none :=
  ⟨rfl, rfl, rfl, rfl, (claim_C8 []).2 rfl rfl rfl rfl⟩

/-- C9: constructing a client with an empty API key fails at construction
time with an error — the constructor is pure, so no network call is
involved; with any non-empty API key construction succeeds, the base URL
default and trailing-slash stripping, the 60s timeout default and the
retry-budget default 3 applied. -/
theorem claim_C9 : ∀ config : PeerCatConfig,
    (config.api_key = "" → PeerCat.with_config config = .error .EmptyApiKey)
    ∧ (config.api_key ≠ "" →
        PeerCat.with_config config =
          .ok ⟨config.api_key,
            trimEndMatchesSlash (config.base_url.getD DEFAULT_BASE_URL),
            config.timeout.getD DEFAULT_TIMEOUT,
            config.max_retries.getD DEFAULT_MAX_RETRIES⟩)
    ∧ (∀ key : String, key ≠ "" →
        PeerCat.new key = .ok ⟨key, "https://api.peerc.at", 60, 3⟩) := by
  intro config
  refine ⟨?_, ?_, ?_⟩
  · intro h
    simp [PeerCat.with_config, h]
  · intro h
    simp [PeerCat.with_config, h]
  · intro key h
    simp [PeerCat.new, PeerCat.with_config, PeerCatConfig.new, h]
    exact ⟨rfl, rfl, rfl⟩

/-- Witness for C9: the empty key is rejected; a concrete non-empty key
gets the defaults; a configured trailing-slash base URL is stripped. -/
theorem claim_C9_witness :
    PeerCat.with_config ⟨"", none, none, none⟩ = .error .EmptyApiKey
    ∧ PeerCat.new "pcat_live_xxx" = .ok ⟨"pcat_live_xxx", "https://api.peerc.at", 60, 3⟩
    ∧ PeerCat.with_config ⟨"k", some "https://example.com/", none, some 5⟩ =
        .ok ⟨"k",
          trimEndMatchesSlash ((some "https://example.com/").getD DEFAULT_BASE_URL),
          (none : Option Nat).getD DEFAULT_TIMEOUT,
          (some 5).getD DEFAULT_MAX_RETRIES⟩ :=
  ⟨(claim_C9 ⟨"", none, none, none⟩).1 rfl,
   (claim_C9 ⟨"pcat_live_xxx", none, none, none⟩).2.2 "pcat_live_xxx" (by decide),
   (claim_C9 ⟨"k", some "https://example.com/", none, some 5⟩).2.1 (by decide)⟩

/-- C10: `retry_after()` is `none` on every variant other than `RateLimit`,
so the Retry-After override never applies to a 5xx classified as `Server`:
even when the response headers carry a `Retry-After` value, the delay
recorded before the next attempt is the computed exponential backoff
`min(1000 * 2 ^ a mod 2 ^ 64, 10000)` — the `u64` value `client.rs:447`
computes — never the header value. -/
theorem claim_C10 : ∀ (V : Type) (tr : Nat → TransportOutcome V) (mr a : Nat)
    (le : Option PeerCatError) (fuel : Nat) (r : HttpResponse V) (m c : String) (s : Nat),
    (∀ e : PeerCatError,
      (∀ (msg code : String) (info : Option RateLimitInfo), e ≠ .RateLimit msg code info) →
      e.retry_after = none)
    ∧ (tr a = .response r → 500 ≤ r.status →
        responseError r.status r.errorBody (RateLimitInfo.from_headers r.headers) =
          .Server m c s →
        a < mr →
        (requestLoop tr mr a le (fuel + 1)).delays.head? =
          some (min (1000 * (2 ^ a % 2 ^ 64) % 2 ^ 64) 10000)) := by
  intro V tr mr a le fuel r m c s
  constructor
  · intro e he
    cases e with
    | RateLimit msg code info => exact absurd rfl (he msg code info)
    | _ => rfl
  · intro h h500 hSrv hlt
    have hns : isSuccessStatus r.status = false := by
      simp [isSuccessStatus]; omega
    have hcl : isClientError r.status = false := by
      simp [isClientError]; omega
    have hstep : attemptStep (tr a) = .failed (.Server m c s) := by
      rw [h, attemptStep_retryable_response r hns (Or.inl hcl), hSrv]
    rw [requestLoop_failed mr le fuel hstep]
    simp [hlt, computeDelay]

/-- Witness for C10: the 500 response carries `Retry-After: 5`, and yet the
delay recorded after attempt 0 is the exponential 1000ms, not 5000ms. -/
theorem claim_C10_witness :
    (PeerCatError.Server "boom" "se" 500).retry_after = none
    ∧ (requestLoop wTr500 2 0 none 3).delays.head? =
        some (min (1000 * (2 ^ 0 % 2 ^ 64) % 2 ^ 64) 10000) :=
  ⟨(claim_C10 Nat wTr500 2 0 none 2 wResp500 "boom" "se" 500).1
      (.Server "boom" "se" 500) (fun _ _ _ h => PeerCatError.noConfusion h),
   (claim_C10 Nat wTr500 2 0 none 2 wResp500 "boom" "se" 500).2
      rfl (by decide) rfl (by decide)⟩

/-- Witness for C1: instantiating the agreement characterization at the
pair (402, `insufficient_credits`) — a terminal aligned pair — shows the
classifier and the Executor agree there. -/
theorem claim_C1_witness :
    (PeerCatError.from_api_error 402 "insufficient_credits" "ic" "No credits"
        none none).is_retryable = executorRetries 402 :=
  (claim_C1 402 "insufficient_credits" "ic" "No credits" none none).mpr (by decide)

end PeerCatSDK
